import Mathlib

/-!
Verification of the UNF Trainer (src/UNF/training/learner.py) against its
specification.  Python floats are modelled as ℚ, with a separate `FVal` type
carrying an explicit NaN for the places where the source tests `torch.isnan`.
Components imported from `training.learner_util` (MetricTracker, Checkpointer,
generate_mask) are not part of src/; their definitions below are modelled from
the spec and marked as such.
-/

/-- A scalar value as produced by the tensor library: either NaN or a
rational number. -/
inductive FVal where
  | nan : FVal
  | num : ℚ → FVal
deriving DecidableEq

/-- The source's `torch.isnan(loss)` test. -/
def FVal.isnan : FVal → Bool
  | .nan => true
  | .num _ => false

/-- Addition with NaN absorption, as in the accumulations `train_loss += ...`
and `val_loss += ...` of the source. -/
def FVal.add : FVal → FVal → FVal
  | .nan, _ => .nan
  | .num _, .nan => .nan
  | .num a, .num b => .num (a + b)

/-- Multiplication with NaN absorption, for `coefficient * regulariration_loss`. -/
def FVal.mul : FVal → FVal → FVal
  | .nan, _ => .nan
  | .num _, .nan => .nan
  | .num a, .num b => .num (a * b)

/-- Modelled from the spec: `MetricTracker` lives in `training/learner_util`,
which is not under src/.  Per spec sections 3 and 4.2 its state is the
optional patience, the comparison direction derived from the metric name's
leading sign marker, and the ordered history of metric values; the best-epoch
bookkeeping is derived from the history (the extremum invariant of spec
section 3 then holds by construction). -/
structure MetricTracker where
  patience : Option ℕ
  isHigherBetter : Bool
  history : List ℚ
deriving DecidableEq

/-- Modelled from the spec: index of the extremum of the remaining history
(maximum if higher-better, minimum otherwise), ties resolved to the earliest
occurrence.  `i` is the index of the head of the remaining list, `bi`/`bv` the
best index and value seen so far. -/
def bestIndexAux (higher : Bool) : List ℚ → ℕ → ℕ → ℚ → ℕ
  | [], _, bi, _ => bi
  | v :: vs, i, bi, bv =>
    if (if higher then bv < v else v < bv) then bestIndexAux higher vs (i + 1) i v
    else bestIndexAux higher vs (i + 1) bi bv

/-- Modelled from the spec: `best_epoch` indexes the extremum of the history,
earliest occurrence on ties. -/
def MetricTracker.best_epoch (t : MetricTracker) : ℕ :=
  match t.history with
  | [] => 0
  | v :: vs => bestIndexAux t.isHigherBetter vs 1 0 v

/-- Modelled from the spec: `epochs_since_best = len(history) - 1 - best_epoch`. -/
def MetricTracker.epochs_since_best (t : MetricTracker) : ℕ :=
  t.history.length - 1 - t.best_epoch

/-- Modelled from the spec: `add_metric` appends the value to the history. -/
def MetricTracker.add_metric (t : MetricTracker) (v : ℚ) : MetricTracker :=
  { t with history := t.history ++ [v] }

/-- Modelled from the spec: `add_metrics` adds a whole list of values (used on
the legacy `val_metric_per_epoch` restore path). -/
def MetricTracker.add_metrics (t : MetricTracker) (vs : List ℚ) : MetricTracker :=
  vs.foldl MetricTracker.add_metric t

/-- Modelled from the spec: `is_best_so_far` is true iff the most recently
added value is strictly better (per direction) than all previous values, or it
is the first value. -/
def MetricTracker.is_best_so_far (t : MetricTracker) : Bool :=
  match t.history.getLast? with
  | none => true
  | some v =>
    t.history.dropLast.all (fun w => if t.isHigherBetter then decide (w < v) else decide (v < w))

/-- Modelled from the spec: `should_stop_early` is true iff patience is
configured and `epochs_since_best` reaches it. -/
def MetricTracker.should_stop_early (t : MetricTracker) : Bool :=
  match t.patience with
  | none => false
  | some p => decide (p ≤ t.epochs_since_best)

/-- Modelled from the spec: `clear` resets the history to empty. -/
def MetricTracker.clear (t : MetricTracker) : MetricTracker :=
  { t with history := [] }

/-- Modelled from the spec: `state_dict` is the full round-trippable tracker
state. -/
def MetricTracker.state_dict (t : MetricTracker) : MetricTracker := t

/-- Modelled from the spec: `load_state_dict` replaces the tracker state with
the loaded one. -/
def MetricTracker.load_state_dict (_t : MetricTracker) (s : MetricTracker) : MetricTracker := s

/-- src/UNF/training/learner.py line 79: `self.validation_metric =
validation_metric[1:]` — the stored lookup key drops the first character of
the configured metric name. -/
def validationMetricKey (validation_metric : String) : String :=
  String.mk (validation_metric.toList.drop 1)

/-- src/UNF/training/learner.py lines 368-371 (`get_metrics`): the "loss"
entry of the returned metrics.  `batchs` is the batch count; the float literal
1e-8 is modelled as the rational 1/10^8. -/
def get_metrics_loss (loss : ℚ) (batchs : ℕ) : ℚ :=
  if 0 < loss then loss / ((batchs : ℚ) + 1 / 100000000) else 0

/-- Claim C9: the Trainer unconditionally strips the first character of the
configured validation_metric string to form the metric lookup key; in
particular for every name not starting with a sign marker the key is the name
with its first letter removed. -/
theorem c9_validation_metric_key (c : Char) (cs : List Char)
    (h1 : c ≠ '+') (h2 : c ≠ '-') :
    validationMetricKey (String.mk ('+' :: cs)) = String.mk cs ∧
    validationMetricKey (String.mk ('-' :: cs)) = String.mk cs ∧
    validationMetricKey (String.mk (c :: cs)) = String.mk cs := ⟨rfl, rfl, rfl⟩

/-- Witness for C9 at the sign-free name "accuracy": the key drops the first
letter whether the leading character is '+', '-' or the letter itself. -/
theorem c9_validation_metric_key_witness :
    validationMetricKey (String.mk ('+' :: ['c', 'c', 'u', 'r', 'a', 'c', 'y'])) =
      String.mk ['c', 'c', 'u', 'r', 'a', 'c', 'y'] ∧
    validationMetricKey (String.mk ('-' :: ['c', 'c', 'u', 'r', 'a', 'c', 'y'])) =
      String.mk ['c', 'c', 'u', 'r', 'a', 'c', 'y'] ∧
    validationMetricKey (String.mk ('a' :: ['c', 'c', 'u', 'r', 'a', 'c', 'y'])) =
      String.mk ['c', 'c', 'u', 'r', 'a', 'c', 'y'] :=
  c9_validation_metric_key 'a' ['c', 'c', 'u', 'r', 'a', 'c', 'y'] (by decide) (by decide)

/-- Claim C10: get_metrics never divides by zero: the denominator
`batchs + 1e-8` is nonzero for every batch count (including zero), the loss
metric is 0 when the cumulative loss is not strictly positive, and it is
`loss / (batchs + 1e-8)` otherwise. -/
theorem c10_get_metrics_no_div_by_zero (loss : ℚ) (batchs : ℕ) :
    ((batchs : ℚ) + 1 / 100000000) ≠ 0 ∧
    (loss ≤ 0 → get_metrics_loss loss batchs = 0) ∧
    (0 < loss → get_metrics_loss loss batchs = loss / ((batchs : ℚ) + 1 / 100000000)) := by
  refine ⟨by positivity, ?_, ?_⟩
  · intro h
    simp [get_metrics_loss, not_lt.mpr h]
  · intro h
    simp [get_metrics_loss, h]

/-- Witness for C10: zero batches with a nonpositive loss report 0, and a
positive loss is divided by the perturbed count. -/
theorem c10_get_metrics_no_div_by_zero_witness :
    get_metrics_loss (-1) 0 = 0 ∧
    get_metrics_loss 5 2 = 5 / ((2 : ℚ) + 1 / 100000000) :=
  ⟨(c10_get_metrics_no_div_by_zero (-1) 0).2.1 (by norm_num),
   by simpa using (c10_get_metrics_no_div_by_zero 5 2).2.2 (by norm_num)⟩

/-- Opaque model weights (spec section 3 treats them as a blob). -/
abbrev ModelState := ℕ

/-- Opaque optimizer state blob. -/
abbrev OptimState := ℕ

/-- Opaque learning-rate-scheduler state blob. -/
abbrev SchedState := ℕ

/-- A value stored in the `training_states` dictionary written by
save_checkpoint and read back by restore_checkpoint. -/
inductive Blob where
  | tracker (s : MetricTracker)
  | optim (s : OptimState)
  | sched (s : SchedState)
  | nat (n : ℕ)
  | metricsList (l : List ℚ)
deriving DecidableEq

/-- The Trainer fields touched by save_checkpoint / restore_checkpoint. -/
structure TrainerState where
  modelState : ModelState
  optimState : OptimState
  hasScheduler : Bool
  schedState : SchedState
  tracker : MetricTracker
  batch_num_total : ℕ
deriving DecidableEq

/-- The record handed to the Checkpointer (spec section 3 CheckpointRecord). -/
structure CheckpointRecord where
  model_state : ModelState
  epoch : ℕ
  training_states : List (String × Blob)
  is_best_so_far : Bool
deriving DecidableEq

/-- src/UNF/training/learner.py lines 240-262 (`save_checkpoint`).  Note the
source stores the tracker state under the literal key "metric_traceker". -/
def Trainer.save_checkpoint (t : TrainerState) (epoch : ℕ) : CheckpointRecord :=
  let training_states : List (String × Blob) :=
    [("metric_traceker", .tracker t.tracker.state_dict),
     ("optimizer", .optim t.optimState),
     ("batch_num_total", .nat t.batch_num_total)]
  let training_states :=
    if t.hasScheduler then
      training_states ++ [("learning_rate_scheduler", .sched t.schedState)]
    else training_states
  { model_state := t.modelState
    epoch := epoch
    training_states := training_states
    is_best_so_far := t.tracker.is_best_so_far }

/-- Modelled from the spec: the Checkpointer (training/learner_util, not under
src/) restore_checkpoint outcome — either no snapshot on stable storage, a
successfully loaded snapshot, or a snapshot that exists but cannot be loaded
(raised as a RuntimeError). -/
inductive CheckpointerResult where
  | noCheckpoint
  | snapshot (model_state : ModelState) (training_state : List (String × Blob))
  | corrupt
deriving DecidableEq

/-- Modelled from the spec: restoring the snapshot written by save_checkpoint
yields the saved training_states together with the epoch the Checkpointer
recorded for the snapshot (restore_checkpoint on src line 289 reads
`training_state["epoch"]`, so the Checkpointer stores it there). -/
def Checkpointer.restoreOfRecord (r : CheckpointRecord) : CheckpointerResult :=
  .snapshot r.model_state (r.training_states ++ [("epoch", .nat r.epoch)])

/-- Exceptions restore_checkpoint can raise: the Checkpointer's RuntimeError
for an unreadable snapshot, a missing dictionary key, or a value of an
unexpected type at a key. -/
inductive RestoreError where
  | runtimeError
  | keyError (k : String)
  | typeMismatch (k : String)
deriving DecidableEq

/-- src/UNF/training/learner.py lines 264-298 (`restore_checkpoint`).  Returns
the epoch to resume from together with the updated trainer state.  The source
also accepts a string-typed epoch of the form "E.frac" written by mid-epoch
snapshots of the external Checkpointer; snapshots written by save_checkpoint
always carry the integer epoch, which is the case modelled here. -/
def Trainer.restore_checkpoint (ckpt : CheckpointerResult) (t : TrainerState) :
    Except RestoreError (ℕ × TrainerState) :=
  match ckpt with
  | .corrupt => .error .runtimeError
  | .noCheckpoint => .ok (0, t)
  | .snapshot model_state training_state =>
    let t := { t with modelState := model_state }
    match List.lookup "optimizer" training_state with
    | some (.optim os) =>
      let t := { t with optimState := os }
      let t :=
        if t.hasScheduler then
          match List.lookup "learning_rate_scheduler" training_state with
          | some (.sched ss) => { t with schedState := ss }
          | _ => t
        else t
      let t :=
        match List.lookup "metric_tracker" training_state with
        | some (.tracker ts) => { t with tracker := t.tracker.load_state_dict ts }
        | _ =>
          match List.lookup "val_metric_per_epoch" training_state with
          | some (.metricsList vs) => { t with tracker := t.tracker.clear.add_metrics vs }
          | _ => { t with tracker := t.tracker.clear }
      match List.lookup "epoch" training_state with
      | some (.nat e) =>
        let t :=
          match List.lookup "batch_num_total" training_state with
          | some (.nat b) => { t with batch_num_total := b }
          | _ => t
        .ok (e + 1, t)
      | some _ => .error (.typeMismatch "epoch")
      | none => .error (.keyError "epoch")
    | some _ => .error (.typeMismatch "optimizer")
    | none => .error (.keyError "optimizer")

/-- save_checkpoint at `epoch` followed by restore_checkpoint of that very
snapshot, the round trip of an interrupt/resume. -/
def saveRestoreRoundtrip (t : TrainerState) (epoch : ℕ) : Except RestoreError (ℕ × TrainerState) :=
  Trainer.restore_checkpoint (Checkpointer.restoreOfRecord (Trainer.save_checkpoint t epoch)) t

/-- The fatal outcomes of learn's restore prologue. -/
inductive FatalError where
  | couldNotRecover
  | uncaught (e : RestoreError)
deriving DecidableEq

/-- src/UNF/training/learner.py lines 132-138: learn wraps a RuntimeError from
restore_checkpoint in the distinct "Could not recover training from the
checkpoint" exception; other exceptions propagate unchanged. -/
def Trainer.learn_restore (ckpt : CheckpointerResult) (t : TrainerState) :
    Except FatalError (ℕ × TrainerState) :=
  match Trainer.restore_checkpoint ckpt t with
  | .error .runtimeError => .error .couldNotRecover
  | .error e => .error (.uncaught e)
  | .ok x => .ok x

/-- A concrete trainer state whose tracker holds one metric value. -/
def c1state : TrainerState :=
  { modelState := 7, optimState := 3, hasScheduler := false, schedState := 0,
    tracker := { patience := some 2, isHigherBetter := true, history := [1/2] },
    batch_num_total := 5 }

/-- Claim C1 (code bug): saving a checkpoint and restoring it does not
rehydrate the metric tracker.  save_checkpoint writes the tracker state under
the key "metric_traceker" while restore_checkpoint looks up "metric_tracker",
so restore falls through to the clear() branch.  Concretely, a tracker whose
history is [1/2] at save time comes back with an empty history (next epoch is
still 1 as expected). -/
theorem c1_tracker_cleared_on_restore :
    c1state.tracker.history = [1/2] ∧
    (saveRestoreRoundtrip c1state 0).map (fun p => (p.1, p.2.tracker.history)) =
      .ok (1, []) := ⟨rfl, rfl⟩

/-- Claim C7: restore_checkpoint returns 0 (a cold start) when no checkpoint
exists, a snapshot that cannot be loaded surfaces in learn as the distinct
"could not recover" fatal error, and a checkpoint saved at epoch E restores
with next epoch E+1. -/
theorem c7_restore_checkpoint_contract (t : TrainerState) (e : ℕ) :
    Trainer.restore_checkpoint .noCheckpoint t = .ok (0, t) ∧
    Trainer.learn_restore .corrupt t = .error .couldNotRecover ∧
    (saveRestoreRoundtrip t e).map Prod.fst = .ok (e + 1) := by
  obtain ⟨ms, os, hs, ss, tr, bnt⟩ := t
  cases hs <;> exact ⟨rfl, rfl, rfl⟩

/-- Opaque logits blob produced by the model. -/
abbrev Logits := ℕ

/-- A label (or label tensor) of a batch. -/
abbrev Label := ℕ

/-- The model's forward result (spec section 3 BatchResult): logits plus the
optional loss, coefficient and regularization entries.  The field names follow
the literal dictionary keys the source reads, including the misspelt
"regulariration_loss" of src line 408. -/
structure BatchResult where
  logits : Logits
  loss : Option FVal
  coefficient : Option FVal
  regulariration_loss : Option FVal
deriving DecidableEq

/-- A missing dictionary key inside batch_loss. -/
inductive BatchError where
  | keyError (k : String)
deriving DecidableEq

/-- src/UNF/training/learner.py lines 403-410: the loss computation of
batch_loss.  A model-provided "loss" entry is returned as is; otherwise the
external loss function is applied to the logits and the label, and if the
result mapping has a "coefficient" entry, `coefficient * regulariration_loss`
is added (a KeyError if that second key is absent). -/
def batchLossValue (loss_func : Logits → Label → FVal) (res : BatchResult) (label : Label) :
    Except BatchError FVal :=
  match res.loss with
  | some l => .ok l
  | none =>
    let loss := loss_func res.logits label
    match res.coefficient with
    | none => .ok loss
    | some c =>
      match res.regulariration_loss with
      | some r => .ok (loss.add (c.mul r))
      | none => .error (.keyError "regulariration_loss")

/-- Modelled from the spec: `generate_mask` is imported from
training/learner_util, which is not under src/.  Spec sections 4.1 (point 7)
and 8: a mask of shape [batch, max_length] whose entry is 1 at every position
strictly before the example's length and 0 after.  The batch_size argument
mirrors the call site; there is one row per example length. -/
def generate_mask (data_seq_length : List ℕ) (seq_len : ℕ) (_batch_size : ℕ) :
    List (List ℕ) :=
  data_seq_length.map (fun L => (List.range seq_len).map (fun j => if j < L then 1 else 0))

/-- src/UNF/training/learner.py line 392: `mask = (data != self.padding_idx).long()`
— entry 1 exactly where the token id differs from the padding index. -/
def paddingMask (data : List (List ℕ)) (padding_idx : ℕ) : List (List ℕ) :=
  data.map (fun row => row.map (fun tok => if tok ≠ padding_idx then 1 else 0))

/-- Claim C5: the model-provided loss takes precedence; otherwise the external
loss_func result is returned, increased by `coefficient * regulariration_loss`
exactly when the result mapping carries a coefficient entry together with the
regularization term. -/
theorem c5_batch_loss_value (loss_func : Logits → Label → FVal) (res : BatchResult)
    (label : Label) :
    (∀ l, res.loss = some l → batchLossValue loss_func res label = .ok l) ∧
    (res.loss = none → res.coefficient = none →
      batchLossValue loss_func res label = .ok (loss_func res.logits label)) ∧
    (∀ c r, res.loss = none → res.coefficient = some c →
      res.regulariration_loss = some r →
      batchLossValue loss_func res label =
        .ok ((loss_func res.logits label).add (c.mul r))) := by
  refine ⟨?_, ?_, ?_⟩ <;> intros <;> simp_all [batchLossValue]

/-- A model result carrying its own loss. -/
def c5resOwnLoss : BatchResult :=
  { logits := 0, loss := some (.num 3), coefficient := none, regulariration_loss := none }

/-- A model result with neither loss nor coefficient. -/
def c5resPlain : BatchResult :=
  { logits := 0, loss := none, coefficient := none, regulariration_loss := none }

/-- A model result with a coefficient and a regularization term. -/
def c5resReg : BatchResult :=
  { logits := 0, loss := none, coefficient := some (.num 2),
    regulariration_loss := some (.num 5) }

/-- Witness for C5 on all three branches, with external loss 9. -/
theorem c5_batch_loss_value_witness :
    batchLossValue (fun _ _ => .num 9) c5resOwnLoss 0 = .ok (.num 3) ∧
    batchLossValue (fun _ _ => .num 9) c5resPlain 0 = .ok (.num 9) ∧
    batchLossValue (fun _ _ => .num 9) c5resReg 0 =
      .ok ((FVal.num 9).add ((FVal.num 2).mul (.num 5))) :=
  ⟨(c5_batch_loss_value (fun _ _ => .num 9) c5resOwnLoss 0).1 (.num 3) rfl,
   (c5_batch_loss_value (fun _ _ => .num 9) c5resPlain 0).2.1 rfl rfl,
   (c5_batch_loss_value (fun _ _ => .num 9) c5resReg 0).2.2 (.num 2) (.num 5) rfl rfl rfl⟩

/-- Claim C6: with explicit per-example lengths, the mask row of example i has
entry 1 exactly at positions strictly before that example's length (and the
spec's concrete instance: lengths [3,1,4] with max length 4 give rows
[1,1,1,0], [1,0,0,0], [1,1,1,1]); without lengths, the mask entry is 1 exactly
where the token id differs from the configured padding index. -/
theorem c6_mask_construction
    (lengths : List ℕ) (seq_len bs i j : ℕ) (hi : i < lengths.length) (hj : j < seq_len)
    (data : List (List ℕ)) (pidx : ℕ) (p q : ℕ) (hp : p < data.length)
    (hq : q < data[p].length) :
    generate_mask [3, 1, 4] 4 3 = [[1, 1, 1, 0], [1, 0, 0, 0], [1, 1, 1, 1]] ∧
    ((generate_mask lengths seq_len bs).getD i []).getD j 0 =
      (if j < lengths[i] then 1 else 0) ∧
    ((paddingMask data pidx).getD p []).getD q 0 =
      (if data[p][q] ≠ pidx then 1 else 0) := by
  refine ⟨by decide, ?_, ?_⟩
  · simp [generate_mask, List.getD_eq_getElem?_getD, List.getElem?_map,
      List.getElem?_range, hj, List.getElem?_eq_getElem hi]
  · simp [paddingMask, List.getD_eq_getElem?_getD, List.getElem?_map,
      List.getElem?_eq_getElem hp, List.getElem?_eq_getElem hq]

/-- Witness for C6: lengths [2,1] at row 0 column 1, and token matrix [[5,1]]
against padding index 1 at row 0 column 1. -/
theorem c6_mask_construction_witness :
    generate_mask [3, 1, 4] 4 3 = [[1, 1, 1, 0], [1, 0, 0, 0], [1, 1, 1, 1]] ∧
    ((generate_mask [2, 1] 2 2).getD 0 []).getD 1 0 =
      (if 1 < ([2, 1] : List ℕ)[0] then 1 else 0) ∧
    ((paddingMask [[5, 1]] 1).getD 0 []).getD 1 0 =
      (if ([[5, 1]] : List (List ℕ))[0][1] ≠ 1 then 1 else 0) :=
  c6_mask_construction [2, 1] 2 2 0 1 (by decide) (by decide) [[5, 1]] 1 0 1
    (by decide) (by decide)

/-- A batch from the iterator, after the transposes of src lines 380-390: a
[batch, seq] token matrix, the optional per-example lengths, the labels. -/
structure Batch where
  text : List (List ℕ)
  lengths : Option (List ℕ)
  label : Label
deriving DecidableEq

/-- The trainer state batch_loss and the epoch loops can touch: the model's
parameters and the optimizer's state (opaque), plus the metric accumulator
that batch_loss updates via `self.metric(logits, label)`. -/
structure ModelOptState where
  params : ℕ
  optim : ℕ
  metricAcc : List (Logits × Label)
deriving DecidableEq

/-- src lines 377-401 of batch_loss: build the mask (explicit lengths when the
batch carries them, padding-index comparison otherwise, with
seq_len = data.size(1) and batch_size = data.size(0)) and call the model.  The
model is an oracle from the batch and the mask to a BatchResult (the model
contract of spec section 6). -/
def modelResult (model : Batch → List (List ℕ) → BatchResult) (padding_idx : ℕ)
    (b : Batch) : BatchResult :=
  let mask :=
    match b.lengths with
    | some ls => generate_mask ls (b.text.headD []).length b.text.length
    | none => paddingMask b.text padding_idx
  model b mask

/-- The loss value batch_loss computes for a batch (src lines 373-410 without
the metric side effect). -/
def batchLossVal (model : Batch → List (List ℕ) → BatchResult)
    (loss_func : Logits → Label → FVal) (padding_idx : ℕ) (b : Batch) :
    Except BatchError FVal :=
  batchLossValue loss_func (modelResult model padding_idx b) b.label

/-- src/UNF/training/learner.py lines 373-416 (`batch_loss`): compute the loss
for the batch and record the metric update `self.metric(logits, label)` in the
accumulator.  Nothing else in batch_loss touches the trainer state. -/
def Trainer.batch_loss (model : Batch → List (List ℕ) → BatchResult)
    (loss_func : Logits → Label → FVal) (padding_idx : ℕ) (b : Batch)
    (s : ModelOptState) : Except BatchError (FVal × ModelOptState) :=
  let res := modelResult model padding_idx b
  match batchLossValue loss_func res b.label with
  | .error e => .error e
  | .ok loss =>
    .ok (loss, { s with metricAcc := s.metricAcc ++ [(res.logits, b.label)] })

/-- src/UNF/training/learner.py lines 418-437 (`val_epoch`): fold over the
batches accumulating `val_loss` and the batch count.  batch_loss always
returns a loss, so the `if loss is not None` guard of the source always
passes; no backward pass and no optimizer step occur.  Arguments after the
batch list are the running val_loss, the running batch count and the state. -/
def Trainer.val_epoch (model : Batch → List (List ℕ) → BatchResult)
    (loss_func : Logits → Label → FVal) (padding_idx : ℕ) :
    List Batch → FVal → ℕ → ModelOptState → Except BatchError (FVal × ℕ × ModelOptState)
  | [], val_loss, n, s => .ok (val_loss, n, s)
  | b :: bs, val_loss, n, s =>
    match Trainer.batch_loss model loss_func padding_idx b s with
    | .error e => .error e
    | .ok (loss, s) =>
      Trainer.val_epoch model loss_func padding_idx bs (val_loss.add loss) (n + 1) s

/-- Errors of the train_epoch batch loop: the ValueError raised on a NaN loss,
or an exception escaping batch_loss. -/
inductive TrainError where
  | nanLoss
  | batchErr (e : BatchError)
deriving DecidableEq

/-- src/UNF/training/learner.py lines 320-352: the batch loop of train_epoch
restricted to the loss path — compute batch_loss, raise ValueError("nan loss
encountered") if the loss is NaN, otherwise accumulate the loss, run the
backward pass and step the optimizer.  The backward-plus-step effect on the
opaque parameter and optimizer blobs is modelled as a successor. -/
def Trainer.train_epoch_batches (model : Batch → List (List ℕ) → BatchResult)
    (loss_func : Logits → Label → FVal) (padding_idx : ℕ) :
    List Batch → FVal → ModelOptState → Except TrainError (FVal × ModelOptState)
  | [], train_loss, s => .ok (train_loss, s)
  | b :: bs, train_loss, s =>
    match Trainer.batch_loss model loss_func padding_idx b s with
    | .error e => .error (.batchErr e)
    | .ok (loss, s) =>
      if loss.isnan then .error .nanLoss
      else
        Trainer.train_epoch_batches model loss_func padding_idx bs (train_loss.add loss)
          { s with params := s.params + 1, optim := s.optim + 1 }

/-- The loss value of batch_loss does not depend on the state it is given. -/
theorem batch_loss_fst (model : Batch → List (List ℕ) → BatchResult)
    (loss_func : Logits → Label → FVal) (padding_idx : ℕ) (b : Batch)
    (s : ModelOptState) :
    (Trainer.batch_loss model loss_func padding_idx b s).map Prod.fst =
      batchLossVal model loss_func padding_idx b := by
  unfold Trainer.batch_loss batchLossVal
  cases h : batchLossValue loss_func (modelResult model padding_idx b) b.label <;>
    simp [h, Except.map]

/-- val_epoch leaves params and optimizer untouched, counts every batch, and
accumulates exactly the batch_loss values, for any starting accumulator. -/
theorem val_epoch_go (model : Batch → List (List ℕ) → BatchResult)
    (loss_func : Logits → Label → FVal) (padding_idx : ℕ) :
    ∀ (batches : List Batch) (acc : FVal) (n : ℕ) (s : ModelOptState)
      (L : FVal) (m : ℕ) (s' : ModelOptState),
      Trainer.val_epoch model loss_func padding_idx batches acc n s = .ok (L, m, s') →
      s'.params = s.params ∧ s'.optim = s.optim ∧ m = n + batches.length ∧
      ∃ ls, batches.mapM (batchLossVal model loss_func padding_idx) = .ok ls ∧
        L = ls.foldl FVal.add acc := by
  intro batches
  induction batches with
  | nil =>
    intro acc n s L m s' h
    simp only [Trainer.val_epoch] at h
    obtain ⟨rfl, rfl, rfl⟩ := by simpa using h
    exact ⟨rfl, rfl, by simp, [], rfl, rfl⟩
  | cons b bs ih =>
    intro acc n s L m s' h
    simp only [Trainer.val_epoch] at h
    cases hb : Trainer.batch_loss model loss_func padding_idx b s with
    | error e => rw [hb] at h; exact absurd h (by simp)
    | ok p =>
      obtain ⟨loss, s1⟩ := p
      rw [hb] at h
      obtain ⟨hp, ho, hm, ls, hls, hL⟩ := ih (acc.add loss) (n + 1) s1 L m s' h
      have hval : batchLossVal model loss_func padding_idx b = .ok loss := by
        rw [← batch_loss_fst model loss_func padding_idx b s, hb]; rfl
      have hs1 : s1.params = s.params ∧ s1.optim = s.optim := by
        simp only [Trainer.batch_loss] at hb
        cases hv : batchLossValue loss_func (modelResult model padding_idx b) b.label with
        | error e => rw [hv] at hb; exact absurd hb (by simp)
        | ok l =>
          rw [hv] at hb
          obtain ⟨-, rfl⟩ := by simpa using hb
          exact ⟨rfl, rfl⟩
      refine ⟨hp.trans hs1.1, ho.trans hs1.2, by simp only [List.length_cons]; omega,
        loss :: ls, ?_, by simpa using hL⟩
      rw [List.mapM_cons, hval, hls]
      rfl

/-- Claim C8: for every sequence of batches, a completed val_epoch run leaves
the model parameters and the optimizer state exactly as it found them, the
returned batch count is the number of batches, and the returned cumulative
loss is the fold of the individual batch_loss values. -/
theorem c8_val_epoch_frame (model : Batch → List (List ℕ) → BatchResult)
    (loss_func : Logits → Label → FVal) (padding_idx : ℕ) (batches : List Batch)
    (s : ModelOptState) (L : FVal) (n : ℕ) (s' : ModelOptState)
    (h : Trainer.val_epoch model loss_func padding_idx batches (FVal.num 0) 0 s =
      .ok (L, n, s')) :
    s'.params = s.params ∧ s'.optim = s.optim ∧ n = batches.length ∧
    ∃ ls, batches.mapM (batchLossVal model loss_func padding_idx) = .ok ls ∧
      L = ls.foldl FVal.add (FVal.num 0) := by
  have := val_epoch_go model loss_func padding_idx batches (FVal.num 0) 0 s L n s' h
  simpa using this

/-- A constant model whose result carries its own loss 2. -/
def c8model : Batch → List (List ℕ) → BatchResult := fun _ _ =>
  { logits := 1, loss := some (.num 2), coefficient := none, regulariration_loss := none }

/-- A one-token batch. -/
def c8batch : Batch := { text := [[2]], lengths := none, label := 0 }

/-- Witness for C8: one batch of loss 2 over a state with params 4 / optim 5
comes back with params 4, optim 5, one counted batch, and loss [2] folded. -/
theorem c8_val_epoch_frame_witness :
    (⟨4, 5, [(1, 0)]⟩ : ModelOptState).params = (⟨4, 5, []⟩ : ModelOptState).params ∧
    (⟨4, 5, [(1, 0)]⟩ : ModelOptState).optim = (⟨4, 5, []⟩ : ModelOptState).optim ∧
    1 = [c8batch].length ∧
    ∃ ls, [c8batch].mapM (batchLossVal c8model (fun _ _ => .num 0) 1) = .ok ls ∧
      (FVal.num 0).add (.num 2) = ls.foldl FVal.add (FVal.num 0) :=
  c8_val_epoch_frame c8model (fun _ _ => .num 0) 1 [c8batch] ⟨4, 5, []⟩
    ((FVal.num 0).add (.num 2)) 1 ⟨4, 5, [(1, 0)]⟩ rfl

/-- Decomposition of a successful mapM over a cons. -/
theorem mapM_cons_ok {f : Batch → Except BatchError FVal} {b : Batch} {bs : List Batch}
    {ls : List FVal} (h : (b :: bs).mapM f = .ok ls) :
    ∃ l ls', f b = .ok l ∧ bs.mapM f = .ok ls' ∧ ls = l :: ls' := by
  rw [List.mapM_cons] at h
  cases hv : f b with
  | error e => rw [hv] at h; exact Except.noConfusion h
  | ok l =>
    rw [hv] at h
    cases hm : bs.mapM f with
    | error e => rw [hm] at h; exact Except.noConfusion h
    | ok ls' =>
      rw [hm] at h
      have h2 : (Except.ok (l :: ls') : Except BatchError (List FVal)) = .ok ls := h
      exact ⟨l, ls', rfl, rfl, (Except.ok.inj h2).symm⟩

/-- A successful batchLossVal gives a successful batch_loss from any state. -/
theorem batch_loss_of_val {model : Batch → List (List ℕ) → BatchResult}
    {loss_func : Logits → Label → FVal} {padding_idx : ℕ} {b : Batch} {l : FVal}
    (hv : batchLossVal model loss_func padding_idx b = .ok l) (s : ModelOptState) :
    ∃ s1, Trainer.batch_loss model loss_func padding_idx b s = .ok (l, s1) := by
  have := batch_loss_fst model loss_func padding_idx b s
  rw [hv] at this
  cases hb : Trainer.batch_loss model loss_func padding_idx b s with
  | error e => rw [hb] at this; exact absurd this (by simp [Except.map])
  | ok p =>
    rw [hb] at this
    obtain ⟨loss, s1⟩ := p
    have hl : loss = l := by simpa [Except.map] using this
    subst hl
    exact ⟨s1, rfl⟩

/-- Claim C4 (amended): the NaN check lives only in train_epoch.  In the
training phase a batch whose loss is NaN raises the ValueError immediately,
regardless of any batches still pending; a training run all of whose batch
losses are non-NaN never raises it; and val_epoch performs no NaN check at
all — it completes on every batch list whose batch losses exist, NaN
included. -/
theorem c4_nan_check_train_only (model : Batch → List (List ℕ) → BatchResult)
    (loss_func : Logits → Label → FVal) (padding_idx : ℕ) :
    (∀ b bs acc s l, batchLossVal model loss_func padding_idx b = .ok l →
      l.isnan = true →
      Trainer.train_epoch_batches model loss_func padding_idx (b :: bs) acc s =
        .error .nanLoss) ∧
    (∀ batches acc s ls,
      batches.mapM (batchLossVal model loss_func padding_idx) = .ok ls →
      ls.all (fun l => !l.isnan) = true →
      ∃ out, Trainer.train_epoch_batches model loss_func padding_idx batches acc s =
        .ok out) ∧
    (∀ batches acc n s ls,
      batches.mapM (batchLossVal model loss_func padding_idx) = .ok ls →
      ∃ out, Trainer.val_epoch model loss_func padding_idx batches acc n s = .ok out) := by
  refine ⟨?_, ?_, ?_⟩
  · intro b bs acc s l hv hnan
    obtain ⟨s1, hb⟩ := batch_loss_of_val hv s
    simp only [Trainer.train_epoch_batches, hb, hnan]
    rfl
  · intro batches
    induction batches with
    | nil => exact fun acc s ls _ _ => ⟨(acc, s), rfl⟩
    | cons b bs ih =>
      intro acc s ls h hall
      obtain ⟨l, ls', hv, hm, rfl⟩ := mapM_cons_ok h
      obtain ⟨s1, hb⟩ := batch_loss_of_val hv s
      have hall2 : (!l.isnan) = true ∧ ls'.all (fun x => !x.isnan) = true := by
        simpa [List.all_cons] using hall
      have hl : l.isnan = false := by simpa using hall2.1
      obtain ⟨out, hout⟩ := ih (acc.add l)
        { s1 with params := s1.params + 1, optim := s1.optim + 1 } ls' hm hall2.2
      exact ⟨out, by simp only [Trainer.train_epoch_batches, hb, hl]; simpa using hout⟩
  · intro batches
    induction batches with
    | nil => exact fun acc n s ls _ => ⟨(acc, n, s), rfl⟩
    | cons b bs ih =>
      intro acc n s ls h
      obtain ⟨l, ls', hv, hm, rfl⟩ := mapM_cons_ok h
      obtain ⟨s1, hb⟩ := batch_loss_of_val hv s
      obtain ⟨out, hout⟩ := ih (acc.add l) (n + 1) s1 ls' hm
      exact ⟨out, by simp only [Trainer.val_epoch, hb]; exact hout⟩

/-- A model whose forward result carries a NaN loss. -/
def c4model : Batch → List (List ℕ) → BatchResult := fun _ _ =>
  { logits := 0, loss := some .nan, coefficient := none, regulariration_loss := none }

/-- A model whose forward result carries the finite loss 2. -/
def c4modelOk : Batch → List (List ℕ) → BatchResult := fun _ _ =>
  { logits := 0, loss := some (.num 2), coefficient := none, regulariration_loss := none }

/-- A one-token batch. -/
def c4batch : Batch := { text := [[2]], lengths := none, label := 0 }

/-- Claim C4 counterexample: a batch whose loss is NaN during the validation
phase does not abort — val_epoch has no isnan check, completes normally and
folds the NaN into the cumulative loss, while the very same batch aborts the
training phase. -/
theorem c4_val_phase_nan_not_fatal :
    Trainer.val_epoch c4model (fun _ _ => .num 0) 1 [c4batch] (FVal.num 0) 0 ⟨0, 0, []⟩ =
      .ok (.nan, 1, ⟨0, 0, [(0, 0)]⟩) ∧
    Trainer.train_epoch_batches c4model (fun _ _ => .num 0) 1 [c4batch] (FVal.num 0)
      ⟨0, 0, []⟩ = .error .nanLoss := ⟨rfl, rfl⟩

/-- Witness for the amended C4: the NaN batch aborts the training loop, a
loss-2 batch completes it, and the NaN batch completes the validation loop. -/
theorem c4_nan_check_train_only_witness :
    Trainer.train_epoch_batches c4model (fun _ _ => .num 0) 1 [c4batch] (FVal.num 0)
      ⟨0, 0, []⟩ = .error .nanLoss ∧
    (∃ out, Trainer.train_epoch_batches c4modelOk (fun _ _ => .num 0) 1 [c4batch]
      (FVal.num 0) ⟨0, 0, []⟩ = .ok out) ∧
    (∃ out, Trainer.val_epoch c4model (fun _ _ => .num 0) 1 [c4batch] (FVal.num 0) 0
      ⟨0, 0, []⟩ = .ok out) :=
  ⟨(c4_nan_check_train_only c4model (fun _ _ => .num 0) 1).1 c4batch [] (FVal.num 0)
      ⟨0, 0, []⟩ .nan rfl rfl,
   (c4_nan_check_train_only c4modelOk (fun _ _ => .num 0) 1).2.1 [c4batch] (FVal.num 0)
      ⟨0, 0, []⟩ [.num 2] rfl rfl,
   (c4_nan_check_train_only c4model (fun _ _ => .num 0) 1).2.2 [c4batch] (FVal.num 0) 0
      ⟨0, 0, []⟩ [.nan] rfl⟩

/-- The configuration of a learn() run: whether a validation iterator and a
scheduler are present, the epoch bound, the stored validation-metric lookup
key, and an oracle giving the validation metrics get_metrics produces at each
epoch (they come from the external model and data). -/
structure LearnEnv where
  hasValIter : Bool
  hasScheduler : Bool
  numEpochs : ℕ
  validation_metric : String
  valMetricsOf : ℕ → List (String × ℚ)

/-- The mutable state of learn's epoch loop: the metric tracker, the Python
locals `val_metrics` and `this_epoch_val_metric` (unbound at function entry,
hence Option), and instrumentation recording which epochs were checkpointed,
which were trained, which stepped the scheduler, and where the early-stopping
break fired. -/
structure LoopState where
  tracker : MetricTracker
  valMetricsVar : Option (List (String × ℚ))
  thisEpochValMetricVar : Option ℚ
  saved : List ℕ
  trained : List ℕ
  schedSteps : List ℕ
  brokeAt : Option ℕ
deriving DecidableEq

/-- Exceptions the epoch loop can raise: a Python UnboundLocalError on a local
read before assignment, or a missing metrics key. -/
inductive LearnError where
  | unboundLocal (name : String)
  | keyError (k : String)
deriving DecidableEq

/-- src/UNF/training/learner.py lines 172-201: the tail of an epoch-loop
iteration, reached only when no break fired.  tensorboard.log_metrics
(line 172) reads the Python local `val_metrics` — an UnboundLocalError if it
was never assigned; the scheduler step (line 199), when a scheduler is
configured, likewise reads the local `this_epoch_val_metric`; save_checkpoint
(line 201) runs last.  The logging-only bookkeeping in between (memory peaks,
the metrics dictionary, dump_metrics, the is_best_so_far metric copy) is
abstracted away; train_epoch's metrics come from an oracle. -/
def Trainer.epoch_rest (env : LearnEnv) (epoch : ℕ) (st : LoopState) :
    Except LearnError (LoopState × Bool) :=
  match st.valMetricsVar with
  | none => .error (.unboundLocal "val_metrics")
  | some _ =>
    if env.hasScheduler then
      match st.thisEpochValMetricVar with
      | none => .error (.unboundLocal "this_epoch_val_metric")
      | some _ =>
        .ok ({ st with
                 schedSteps := st.schedSteps ++ [epoch],
                 saved := st.saved ++ [epoch] }, false)
    else .ok ({ st with saved := st.saved ++ [epoch] }, false)

/-- src/UNF/training/learner.py lines 151-170: one iteration of the epoch
loop of learn.  train_epoch runs first (its batch loop is embedded as
train_epoch_batches, its metrics are logging-only here); when a validation
iterator exists the configured metric is looked up in this epoch's validation
metrics (a KeyError when absent), appended to the tracker, and the locals
`val_metrics` / `this_epoch_val_metric` are assigned; the early-stop break
(line 170) then exits before the tail runs.  Returns the state and whether
the break fired. -/
def Trainer.epoch_body (env : LearnEnv) (epoch : ℕ) (st : LoopState) :
    Except LearnError (LoopState × Bool) :=
  let st := { st with trained := st.trained ++ [epoch] }
  if env.hasValIter then
    match List.lookup env.validation_metric (env.valMetricsOf epoch) with
    | none => .error (.keyError env.validation_metric)
    | some m =>
      let st := { st with
                    tracker := st.tracker.add_metric m,
                    valMetricsVar := some (env.valMetricsOf epoch),
                    thisEpochValMetricVar := some m }
      if st.tracker.should_stop_early then .ok ({ st with brokeAt := some epoch }, true)
      else Trainer.epoch_rest env epoch st
  else Trainer.epoch_rest env epoch st

/-- src/UNF/training/learner.py lines 151-202: the epoch loop itself,
`for epoch in range(epoch_counter, num_epochs)`, with the remaining iteration
count made explicit.  A break from the body ends the loop. -/
def Trainer.learn_loop (env : LearnEnv) : ℕ → ℕ → LoopState → Except LearnError LoopState
  | _, 0, st => .ok st
  | epoch, n + 1, st =>
    match Trainer.epoch_body env epoch st with
    | .error e => .error e
    | .ok (st, true) => .ok st
    | .ok (st, false) => Trainer.learn_loop env (epoch + 1) n st

/-- learn's epoch loop started from epoch_counter with the locals unbound and
the instrumentation empty. -/
def Trainer.learn_run (env : LearnEnv) (epoch_counter : ℕ) (tracker : MetricTracker) :
    Except LearnError LoopState :=
  Trainer.learn_loop env epoch_counter (env.numEpochs - epoch_counter)
    { tracker := tracker, valMetricsVar := none, thisEpochValMetricVar := none,
      saved := [], trained := [], schedSteps := [], brokeAt := none }

/-- A learn() configuration with no validation iterator and one epoch. -/
def c3env : LearnEnv :=
  { hasValIter := false, hasScheduler := false, numEpochs := 1,
    validation_metric := validationMetricKey "+f1_measure",
    valMetricsOf := fun _ => [] }

/-- Claim C3 (code bug): with no validation iterator, learn does not complete
its epochs with validation skipped — the first epoch already raises an
UnboundLocalError, because line 172 passes the local `val_metrics` to
tensorboard.log_metrics and that local is only ever assigned inside the
`if self.val_iter is not None` block. -/
theorem c3_no_val_iter_crashes :
    Trainer.learn_run c3env 0
      { patience := none, isHigherBetter := true, history := [] } =
      .error (.unboundLocal "val_metrics") := rfl

/-- The epoch tail never breaks; it checkpoints exactly its epoch and touches
neither the trained list nor the break marker. -/
theorem epoch_rest_effects (env : LearnEnv) (epoch : ℕ) (st st' : LoopState) (brk : Bool)
    (h : Trainer.epoch_rest env epoch st = .ok (st', brk)) :
    brk = false ∧ st'.trained = st.trained ∧ st'.saved = st.saved ++ [epoch] ∧
      st'.brokeAt = st.brokeAt := by
  simp only [Trainer.epoch_rest] at h
  repeat' split at h
  all_goals simp_all
  all_goals (obtain ⟨rfl, rfl⟩ := h; simp)

/-- One epoch-loop iteration always records its epoch as trained; when the
early-stop break fires nothing is checkpointed and the break marker is set;
otherwise exactly this epoch is checkpointed and the marker is untouched. -/
theorem epoch_body_effects (env : LearnEnv) (epoch : ℕ) (st st' : LoopState) (brk : Bool)
    (h : Trainer.epoch_body env epoch st = .ok (st', brk)) :
    st'.trained = st.trained ++ [epoch] ∧
    (brk = true → st'.saved = st.saved ∧ st'.brokeAt = some epoch) ∧
    (brk = false → st'.saved = st.saved ++ [epoch] ∧ st'.brokeAt = st.brokeAt) := by
  simp only [Trainer.epoch_body] at h
  split at h
  · split at h
    · exact Except.noConfusion h
    · split at h
      · obtain ⟨rfl, rfl⟩ := by simpa using h
        simp
      · obtain ⟨hb, ht, hs, hbr⟩ := epoch_rest_effects env epoch _ st' brk h
        subst hb
        simp_all
  · obtain ⟨hb, ht, hs, hbr⟩ := epoch_rest_effects env epoch _ st' brk h
    subst hb
    simp_all

/-- Claim C2 (amended): learn checkpoints every epoch that completes without
the early-stopping break, and does not checkpoint the epoch on which
should_stop_early fires — the break on line 170 exits the loop before the
save_checkpoint call on line 201.  At the end of the loop the saved epochs are
exactly the trained epochs with the breaking epoch (if any) removed. -/
theorem c2_saved_equals_trained_minus_break (env : LearnEnv) (e0 n : ℕ)
    (st st' : LoopState) (hb : st.brokeAt = none) (hs : st.saved = st.trained)
    (hlt : ∀ x ∈ st.trained, x < e0)
    (h : Trainer.learn_loop env e0 n st = .ok st') :
    st'.saved = st'.trained.filter (fun e => st'.brokeAt != some e) := by
  induction n generalizing e0 st with
  | zero =>
    obtain rfl : st = st' := by simpa [Trainer.learn_loop] using h
    rw [hs, hb, List.filter_eq_self.mpr]
    intro a _
    simp
  | succ n ih =>
    simp only [Trainer.learn_loop] at h
    cases hbody : Trainer.epoch_body env e0 st with
    | error e => rw [hbody] at h; exact Except.noConfusion h
    | ok p =>
      obtain ⟨st1, brk⟩ := p
      rw [hbody] at h
      obtain ⟨ht, hbt, hbf⟩ := epoch_body_effects env e0 st st1 brk hbody
      cases brk with
      | true =>
        obtain rfl : st1 = st' := by simpa using h
        obtain ⟨hsv, hba⟩ := hbt rfl
        rw [hsv, hs, ht, hba, List.filter_append]
        have h1 : st.trained.filter (fun e => ((some e0 : Option ℕ) != some e)) =
            st.trained := by
          rw [List.filter_eq_self]
          intro a ha
          have hlt2 := hlt a ha
          simp only [bne_iff_ne, ne_eq, Option.some.injEq]
          omega
        have h2 : [e0].filter (fun e => ((some e0 : Option ℕ) != some e)) = [] := by simp
        rw [h1, h2, List.append_nil]
      | false =>
        obtain ⟨hsv, hba⟩ := hbf rfl
        have h' : Trainer.learn_loop env (e0 + 1) n st1 = .ok st' := h
        refine ih (e0 + 1) st1 (hba.trans hb) (by rw [hsv, hs, ht]) ?_ h'
        intro x hx
        rw [ht] at hx
        rcases List.mem_append.mp hx with hx1 | hx2
        · exact Nat.lt_succ_of_lt (hlt x hx1)
        · simp only [List.mem_singleton] at hx2
          omega

/-- A learn() configuration with a validation iterator, five epochs, patience
driven through the tracker, and a validation metric that is 1 at epoch 0 and
0 afterwards. -/
def c2env : LearnEnv :=
  { hasValIter := true, hasScheduler := false, numEpochs := 5,
    validation_metric := validationMetricKey "+f1_measure",
    valMetricsOf := fun e => [("f1_measure", if e = 0 then 1 else 0)] }

/-- The loop state at entry of learn for the C2 run: an empty tracker with
patience 1, higher-is-better, locals unbound, instrumentation empty. -/
def c2init : LoopState :=
  { tracker := { patience := some 1, isHigherBetter := true, history := [] },
    valMetricsVar := none, thisEpochValMetricVar := none,
    saved := [], trained := [], schedSteps := [], brokeAt := none }

/-- Claim C2 counterexample: in the run from c2init under c2env, epoch 0
improves, epoch 1 does not, so should_stop_early fires at epoch 1; epochs 0
and 1 are both trained but only epoch 0 is checkpointed — the epoch on which
the early stop fires is not persisted, contradicting the claim that the state
after that epoch is still saved before learn exits the loop. -/
theorem c2_stop_epoch_not_saved :
    (Trainer.learn_run c2env 0 c2init.tracker).map
      (fun st => (st.trained, st.saved, st.brokeAt)) = .ok ([0, 1], [0], some 1) := rfl

/-- The loop state after the C2 run: stopped at epoch 1, epoch 0 saved. -/
def c2final : LoopState :=
  { tracker := { patience := some 1, isHigherBetter := true, history := [1, 0] },
    valMetricsVar := some [("f1_measure", 0)],
    thisEpochValMetricVar := some 0,
    saved := [0], trained := [0, 1], schedSteps := [], brokeAt := some 1 }

/-- Witness for the amended C2, on the concrete early-stopped run. -/
theorem c2_saved_equals_trained_minus_break_witness :
    c2final.saved = c2final.trained.filter (fun e => c2final.brokeAt != some e) :=
  c2_saved_equals_trained_minus_break c2env 0 5 c2init c2final rfl rfl
    (by intro x hx; simp [c2init] at hx) rfl
